import Mathlib

/-!
Shallow embedding of the DockGenAI backend build pipeline
(`ContainerBuildEngine` in `src/services/DockerService.ts`).

The engine is effectful: it touches the filesystem (`fs.promises`), spawns
the external container builder (`execAsync`), and queries the builder's
image store.  We model the filesystem explicitly as a finite map from
paths to contents plus a set of directories, and the external world
(uuid generation, the validator verdict, the two `execAsync` calls and the
two `docker images` queries of one invocation) as an environment record:
every run of the pipeline is a pure function of the environment and the
initial filesystem.  `execAsync` either resolves with `(stdout, stderr)`
or rejects with an error message (non-zero exit or the 300 s timeout);
both are captured by `ExecResult`.
-/

/-- A filesystem path, as a list of segments relative to the process cwd. -/
abbrev FPath := List String

/-- The modelled filesystem: a set of existing directories and a map from
file paths to file contents. -/
structure FS where
  dirs : List FPath
  files : List (FPath × String)
  deriving Repr, DecidableEq

/-- Directory existence (`dirs` is read as a set). -/
def FS.dirExists (fs : FS) (p : FPath) : Bool :=
  fs.dirs.contains p

/-- File existence. -/
def FS.fileIsPresent (fs : FS) (p : FPath) : Bool :=
  fs.files.any (fun e => e.1 = p)

/-- `fs.promises.access` resolves for files and directories alike; the
engine's `fileExists` helper is built on it. -/
def FS.accessOk (fs : FS) (p : FPath) : Bool :=
  fs.fileIsPresent p || fs.dirExists p

/-- Content of the file at `p`, if present. -/
def FS.read (fs : FS) (p : FPath) : Option String :=
  (fs.files.find? (fun e => e.1 = p)).map Prod.snd

/-- All non-empty ancestor paths of `p`, `p` itself included. -/
def pathAncestors : FPath → List FPath
  | [] => []
  | a :: rest => [a] :: (pathAncestors rest).map (fun q => a :: q)

/-- `fs.promises.mkdir(p, \x7b recursive: true \x7d)`: creates `p` and all
its ancestors; succeeds also when they already exist. -/
def FS.mkdirRecursive (fs : FS) (p : FPath) : FS :=
  { fs with dirs := pathAncestors p ++ fs.dirs }

/-- The error message Node raises when a write misses its parent directory. -/
def enoentMessage : String := "ENOENT: no such file or directory"

/-- `fs.promises.writeFile`: overwrites or creates the file; rejects with
`ENOENT` when the parent directory does not exist. -/
def FS.writeFile (fs : FS) (p : FPath) (content : String) : Except String FS :=
  if fs.dirExists p.dropLast then
    .ok { fs with files := (p, content) :: fs.files.filter (fun e => e.1 ≠ p) }
  else
    .error enoentMessage

/-- `fs.promises.rm(p, \x7b recursive: true, force: true \x7d)`: removes `p`
and everything below it; never fails. -/
def FS.rmRecursive (fs : FS) (p : FPath) : FS :=
  { dirs := fs.dirs.filter (fun q => ¬ p.isPrefixOf q),
    files := fs.files.filter (fun e => ¬ p.isPrefixOf e.1) }

/-- Character-list prefix test (executable). -/
def listIsPrefixB : List Char → List Char → Bool
  | [], _ => true
  | _ :: _, [] => false
  | a :: as, b :: bs => a == b && listIsPrefixB as bs

/-- Character-list contiguous-occurrence test (executable). -/
def listIsInfixB (needle : List Char) : List Char → Bool
  | [] => listIsPrefixB needle []
  | b :: rest => listIsPrefixB needle (b :: rest) || listIsInfixB needle rest

/-- JavaScript's `haystack.includes(needle)`: the needle's characters occur
contiguously inside the haystack. -/
def jsIncludes (haystack needle : String) : Bool :=
  listIsInfixB needle.data haystack.data

/-- The character class removed by JavaScript's `String.prototype.trim`. -/
def isJsWhitespace (c : Char) : Bool :=
  c = ' ' || c = '\t' || c = '\n' || c = '\r' || c = '\x0b' || c = '\x0c'

/-- JavaScript's `s.trim()`: strips leading and trailing whitespace. -/
def jsTrim (s : String) : String :=
  ⟨((s.data.dropWhile isJsWhitespace).reverse.dropWhile isJsWhitespace).reverse⟩

mutual
/-- Serialized JSON values as produced by the engine: the package
descriptors it handles consist of strings and objects. -/
inductive Json where
  | str (s : String)
  | obj (members : JsonMembers)
  deriving Repr, DecidableEq

inductive JsonMembers where
  | nil
  | cons (key : String) (value : Json) (rest : JsonMembers)
  deriving Repr, DecidableEq
end

/-- JSON string escaping as performed by `JSON.stringify`. -/
def jsonEscapeChar (c : Char) : String :=
  if c = '\\' then "\\\\"
  else if c = '"' then "\\\""
  else if c = '\n' then "\\n"
  else String.singleton c

def jsonEscape (s : String) : String :=
  String.join (s.data.map jsonEscapeChar)

def jsonIndent (n : Nat) : String :=
  String.join (List.replicate n " ")

mutual
def Json.render : Json → Nat → String
  | .str s, _ => "\"" ++ jsonEscape s ++ "\""
  | .obj .nil, _ => "\x7b\x7d"
  | .obj ms, ind =>
      "\x7b\n" ++ JsonMembers.render ms (ind + 2) ++ "\n" ++ jsonIndent ind ++ "\x7d"

def JsonMembers.render : JsonMembers → Nat → String
  | .nil, _ => ""
  | .cons k v .nil, ind =>
      jsonIndent ind ++ "\"" ++ jsonEscape k ++ "\": " ++ Json.render v ind
  | .cons k v rest, ind =>
      jsonIndent ind ++ "\"" ++ jsonEscape k ++ "\": " ++ Json.render v ind
        ++ ",\n" ++ JsonMembers.render rest ind
end

/-- Top-level `JSON.stringify(v, null, 2)`. -/
def Json.stringify (j : Json) : String := j.render 0

/-- The repository descriptor as far as the build engine reads it:
`createPackageJson` consults only `repositoryData?.packageJson`. -/
structure RepoData where
  packageJson : Option Json
  deriving Repr, DecidableEq

/-- Verdict of the Dockerfile validator
(`DockerfileValidationService.validateDockerfile`). -/
structure ValidationVerdict where
  isValid : Bool
  errors : List String
  warnings : List String
  suggestions : List String
  deriving Repr, DecidableEq

/-- Outcome of one `execAsync` call: resolution with `(stdout, stderr)`,
or rejection (non-zero exit status or the wall-clock timeout) carrying the
error's message. -/
inductive ExecResult where
  | ok (stdout stderr : String)
  | fail (message : String)
  deriving Repr, DecidableEq

/-- A rejected `execAsync` call always carries a non-empty `Error.message`
in Node; environments satisfying this are the realizable ones. -/
def ExecResult.failMsgNonempty : ExecResult → Bool
  | .ok _ _ => true
  | .fail m => m ≠ ""

/-- The external world of one `buildImage` invocation: the fresh workspace
token from `uuidv4()`, the validator (not part of the sources under
verification; its verdict function is the oracle), and the outcomes of the
builder invocations and image-store queries of the primary and the
fallback attempt. -/
structure BuildEnv where
  uniqueBuildId : String
  validate : String → ValidationVerdict
  primaryExec : ExecResult
  primaryImages : ExecResult
  fallbackExec : ExecResult
  fallbackImages : ExecResult

/-- All `execAsync` rejections of the environment carry non-empty messages. -/
def BuildEnv.wellFormed (env : BuildEnv) : Prop :=
  env.primaryExec.failMsgNonempty = true ∧ env.primaryImages.failMsgNonempty = true ∧
  env.fallbackExec.failMsgNonempty = true ∧ env.fallbackImages.failMsgNonempty = true

/-- The pipeline's sole return contract. -/
structure BuildResult where
  success : Bool
  imageId : Option String
  error : Option String
  deriving Repr, DecidableEq

/-- `this.buildDirectory = path.join(process.cwd(), 'temp')`. -/
def buildDirectory : FPath := ["temp"]

/-- The image tag: `dockgen-ai-$\x7bbuildId\x7d:latest`. -/
def containerImageName (buildId : String) : String :=
  "dockgen-ai-" ++ buildId ++ ":latest"

/-- The fixed `.dockerignore` written into every primary workspace. -/
def dockerignoreContent : String :=
  "node_modules\n" ++
  "npm-debug.log*\n" ++
  "yarn-debug.log*\n" ++
  "yarn-error.log*\n" ++
  ".git\n" ++
  ".gitignore\n" ++
  "README.md\n" ++
  ".env\n" ++
  ".nyc_output\n" ++
  "coverage\n" ++
  ".nyc_output\n" ++
  ".coverage\n" ++
  ".cache\n" ++
  ".parcel-cache\n" ++
  ".next\n" ++
  ".nuxt\n" ++
  "dist\n" ++
  "build\n" ++
  ".tmp\n" ++
  ".temp\n" ++
  "*.log\n" ++
  "*.pid\n" ++
  "*.seed\n" ++
  "*.pid.lock\n" ++
  ".DS_Store\n" ++
  "Thumbs.db\n" ++
  ".vscode\n" ++
  ".idea\n" ++
  "*.swp\n" ++
  "*.swo\n" ++
  "*~"

/-- The fixed, hand-authored fallback Dockerfile synthesized by
`createFallbackBuild`; independent of the original input. -/
def fallbackDockerfile : String :=
  "# Simple Node.js Application\n" ++
  "FROM node:18-alpine\n" ++
  "\n" ++
  "WORKDIR /app\n" ++
  "\n" ++
  "# Copy package files\n" ++
  "COPY package.json ./\n" ++
  "\n" ++
  "# Install dependencies\n" ++
  "RUN npm install\n" ++
  "\n" ++
  "# Copy source files\n" ++
  "COPY . .\n" ++
  "\n" ++
  "# Expose port (use numeric port, not environment variable)\n" ++
  "EXPOSE 3000\n" ++
  "\n" ++
  "# Start the application\n" ++
  "CMD [\"npm\", \"start\"]"

/-- The default package descriptor returned by `createPackageJson` when
the repository data carries none. -/
def defaultPackageJson : Json :=
  .obj (.cons "name" (.str "dockgen-test")
    (.cons "version" (.str "1.0.0")
    (.cons "description" (.str "Generated by DockGen AI")
    (.cons "main" (.str "index.js")
    (.cons "scripts" (.obj (.cons "start" (.str "node index.js")
      (.cons "dev" (.str "node index.js")
      (.cons "build" (.str "echo \"Build completed\"") .nil))))
    (.cons "dependencies" (.obj (.cons "express" (.str "^4.18.2") .nil))
    (.cons "engines" (.obj (.cons "node" (.str ">=18.0.0") .nil))
    .nil)))))))

/-- The placeholder entry-point source written by `createSourceFiles` when
none exists (`index.js`). -/
def indexJsContent : String :=
  "const express = require(\x27express\x27);\n" ++
  "const app = express();\n" ++
  "const port = process.env.PORT || 3000;\n" ++
  "\n" ++
  "// Health check endpoint\n" ++
  "app.get(\x27/health\x27, (req, res) => \x7b\n" ++
  "  res.status(200).json(\x7b status: \x27healthy\x27, timestamp: new Date().toISOString() \x7d);\n" ++
  "\x7d);\n" ++
  "\n" ++
  "// Basic route\n" ++
  "app.get(\x27/\x27, (req, res) => \x7b\n" ++
  "  res.json(\x7b \n" ++
  "    message: \x27Hello from DockGen AI!\x27, \n" ++
  "    timestamp: new Date().toISOString(),\n" ++
  "    version: \x271.0.0\x27\n" ++
  "  \x7d);\n" ++
  "\x7d);\n" ++
  "\n" ++
  "// Start server\n" ++
  "app.listen(port, \x270.0.0.0\x27, () => \x7b\n" ++
  "  console.log(`Server is running on port $\x7bport\x7d`);\n" ++
  "  console.log(`Health check available at http://localhost:$\x7bport\x7d/health`);\n" ++
  "\x7d);\n" ++
  "\n" ++
  "// Graceful shutdown\n" ++
  "process.on(\x27SIGTERM\x27, () => \x7b\n" ++
  "  console.log(\x27SIGTERM received, shutting down gracefully\x27);\n" ++
  "  process.exit(0);\n" ++
  "\x7d);\n" ++
  "\n" ++
  "process.on(\x27SIGINT\x27, () => \x7b\n" ++
  "  console.log(\x27SIGINT received, shutting down gracefully\x27);\n" ++
  "  process.exit(0);\n" ++
  "\x7d);"

/-- `createPackageJson(repositoryData)`: returns the repository's own
manifest object verbatim when one is carried, the default otherwise. -/
def ContainerBuildEngine.createPackageJson (repositoryData : Option RepoData) : Json :=
  match repositoryData with
  | some rd =>
    match rd.packageJson with
    | some pj => pj
    | none => defaultPackageJson
  | none => defaultPackageJson

/-- The engine's `fileExists` helper: `fs.promises.access` with the
rejection caught. -/
def ContainerBuildEngine.fileExists (fs : FS) (p : FPath) : Bool :=
  fs.accessOk p

/-- `createDockerignore(buildWorkspace)`. -/
def ContainerBuildEngine.createDockerignore (buildWorkspace : FPath) (fs : FS) :
    Except String FS :=
  fs.writeFile (buildWorkspace ++ [".dockerignore"]) dockerignoreContent

/-- The package.json step of `buildImage` (lines writing `packageJsonPath`):
write `JSON.stringify(createPackageJson(repoData), null, 2)` only if the
file is absent. -/
def ContainerBuildEngine.materializePackageJson (buildWorkspace : FPath)
    (repositoryData : Option RepoData) (fs : FS) : Except String FS :=
  let packageJsonPath := buildWorkspace ++ ["package.json"]
  if ContainerBuildEngine.fileExists fs packageJsonPath then .ok fs
  else
    fs.writeFile packageJsonPath
      (Json.stringify (ContainerBuildEngine.createPackageJson repositoryData))

/-- `createSourceFiles(buildWorkspace, repositoryData)`: writes the
placeholder `index.js` only if absent (the repository data is not
consulted by the source). -/
def ContainerBuildEngine.createSourceFiles (buildWorkspace : FPath)
    (repositoryData : Option RepoData) (fs : FS) : Except String FS :=
  let indexJsPath := buildWorkspace ++ ["index.js"]
  if ContainerBuildEngine.fileExists fs indexJsPath then .ok fs
  else fs.writeFile indexJsPath indexJsContent

/-- `stderr.includes('ERROR') && !stderr.includes('Successfully built')`:
the critical-error classification of the diagnostic stream. -/
def classifyCriticalStderr (stderr : String) : Bool :=
  jsIncludes stderr "ERROR" && !(jsIncludes stderr "Successfully built")

/-- The `if (stderr) \x7b ... throw ... \x7d` block of `buildImage`:
`.error` is the thrown `Docker build failed` exception, `.ok` means the
attempt proceeds to verification. -/
def stderrCheck (stderr : String) : Except String Unit :=
  if stderr ≠ "" then
    if classifyCriticalStderr stderr then
      .error ("Docker build failed: " ++ stderr)
    else .ok ()
  else .ok ()

/-- The `catch` of `buildImage`: every thrown error (always an `Error`
here) becomes a failure result carrying its message. -/
def primaryCatch (message : String) : BuildResult :=
  { success := false, imageId := none, error := some message }

/-- The `catch` of `createFallbackBuild`. -/
def fallbackCatch (message : String) : BuildResult :=
  { success := false, imageId := none,
    error := some ("Both original and fallback builds failed: " ++ message) }

/-- `createFallbackBuild(originalDockerfileContent, buildId, repositoryData)`:
writes the fixed fallback Dockerfile into `temp/<buildId>` (no directory
creation), runs the builder there, verifies the image, and wraps any
thrown error via its catch. Returns the result paired with the final
filesystem. -/
def ContainerBuildEngine.createFallbackBuild (env : BuildEnv)
    (originalDockerfileContent buildId : String) (repositoryData : Option RepoData)
    (fs : FS) : BuildResult × FS :=
  let fallbackBuildDir : FPath := buildDirectory ++ [buildId]
  let dockerfilePath : FPath := fallbackBuildDir ++ ["Dockerfile"]
  match fs.writeFile dockerfilePath fallbackDockerfile with
  | .error msg => (fallbackCatch msg, fs)
  | .ok fs1 =>
    match env.fallbackExec with
    | .fail msg => (fallbackCatch msg, fs1)
    | .ok _ _ =>
      match env.fallbackImages with
      | .fail msg => (fallbackCatch msg, fs1)
      | .ok imagesOutput _ =>
        let fallbackImageId := jsTrim imagesOutput
        if fallbackImageId = "" then
          (fallbackCatch "Fallback Docker image was not created successfully", fs1)
        else
          ({ success := true, imageId := some (containerImageName buildId),
             error := none }, fs1)

/-- `buildImage(dockerfileContent, buildId, repositoryData)`: the full
pipeline — workspace creation, validation (fallback on invalid verdict),
materialization, builder invocation with stderr classification,
image-store verification, cleanup on success; every thrown error
becomes a failure result via the catch. -/
def ContainerBuildEngine.buildImage (env : BuildEnv)
    (dockerfileContent buildId : String) (repositoryData : Option RepoData)
    (fs : FS) : BuildResult × FS :=
  let buildWorkspace : FPath := buildDirectory ++ [env.uniqueBuildId]
  let fs1 := fs.mkdirRecursive buildWorkspace
  let validationResult := env.validate dockerfileContent
  if !validationResult.isValid then
    ContainerBuildEngine.createFallbackBuild env dockerfileContent buildId
      repositoryData fs1
  else
    match fs1.writeFile (buildWorkspace ++ ["Dockerfile"]) dockerfileContent with
    | .error msg => (primaryCatch msg, fs1)
    | .ok fs2 =>
      match ContainerBuildEngine.createDockerignore buildWorkspace fs2 with
      | .error msg => (primaryCatch msg, fs2)
      | .ok fs3 =>
        match ContainerBuildEngine.materializePackageJson buildWorkspace
            repositoryData fs3 with
        | .error msg => (primaryCatch msg, fs3)
        | .ok fs4 =>
          match ContainerBuildEngine.createSourceFiles buildWorkspace
              repositoryData fs4 with
          | .error msg => (primaryCatch msg, fs4)
          | .ok fs5 =>
            match env.primaryExec with
            | .fail msg => (primaryCatch msg, fs5)
            | .ok _ stderr =>
              match stderrCheck stderr with
              | .error msg => (primaryCatch msg, fs5)
              | .ok _ =>
                match env.primaryImages with
                | .fail msg => (primaryCatch msg, fs5)
                | .ok imagesOutput _ =>
                  let containerImageId := jsTrim imagesOutput
                  if containerImageId = "" then
                    (primaryCatch "Docker image was not created successfully", fs5)
                  else
                    let fs6 := fs5.rmRecursive buildWorkspace
                    ({ success := true,
                       imageId := some (containerImageName buildId),
                       error := none }, fs6)

/-- Sample environment builder for concrete runs: the validator verdict is
constant, the workspace token is fixed to `"wstoken"`. -/
def mkEnv (valid : Bool) (pExec pImages fExec fImages : ExecResult) : BuildEnv :=
  { uniqueBuildId := "wstoken",
    validate := fun _ =>
      { isValid := valid,
        errors := if valid then [] else ["Missing FROM directive"],
        warnings := [], suggestions := [] },
    primaryExec := pExec, primaryImages := pImages,
    fallbackExec := fExec, fallbackImages := fImages }

/-- A filesystem holding only the shared build root `temp`. -/
def fsTempOnly : FS := { dirs := [["temp"]], files := [] }

/-- A filesystem holding the build root and the fallback directory
`temp/<buildId>`. -/
def fsWithFallbackDir (buildId : String) : FS :=
  { dirs := [["temp"], ["temp", buildId]], files := [] }

/-- Environment of a run whose validation passes but whose builder
invocation rejects (e.g. the 300 s timeout), while the fallback attempt
would succeed. -/
def envExecFails : BuildEnv :=
  mkEnv true (.fail "Command failed: docker build (timed out after 300000 ms)")
    (.ok "abc123\n" "") (.ok "" "") (.ok "abc123\n" "")

/-- Environment of a fully successful primary run. -/
def envHappy : BuildEnv :=
  mkEnv true (.ok "build output" "") (.ok "abc123\n" "") (.ok "" "") (.ok "abc123\n" "")

/-- Environment of a run whose validation fails and whose fallback attempt
succeeds. -/
def envInvalidFallbackOk : BuildEnv :=
  mkEnv false (.ok "" "") (.ok "abc123\n" "") (.ok "fallback output" "") (.ok "def456\n" "")

/-- Environment of a run whose validation fails and whose fallback builder
invocation also rejects. -/
def envInvalidFallbackFails : BuildEnv :=
  mkEnv false (.ok "" "") (.ok "abc123\n" "") (.fail "npm install failed") (.ok "" "")

/-- Environment of a run whose builder resolves but whose image-store
query returns an empty identifier, on both paths. -/
def envNoImage : BuildEnv :=
  mkEnv true (.ok "build output" "") (.ok "\n" "") (.ok "fallback output" "") (.ok "\n" "")

/-- Environment of a run whose validation passes, whose builder resolves
with exit 0 but an error-classified diagnostic stream, and whose fallback
attempt would succeed. -/
def envStderrCritical : BuildEnv :=
  mkEnv true (.ok "build output" "ERROR: no such file") (.ok "abc123\n" "")
    (.ok "" "") (.ok "abc123\n" "")

/-! ## Helper lemmas -/

lemma append_ne_empty_of_left (s t : String) (h : s ≠ "") : s ++ t ≠ "" := by
  intro hc
  have hd := congrArg String.data hc
  rw [String.data_append] at hd
  have h1 : s.data = [] := (List.append_eq_nil.mp hd).1
  apply h
  cases s with
  | mk d => simp_all

lemma fallbackCatch_shape (m : String) :
    ∃ m', m' ≠ "" ∧
      fallbackCatch m = { success := false, imageId := none, error := some m' } :=
  ⟨"Both original and fallback builds failed: " ++ m,
    append_ne_empty_of_left _ _ (by decide), rfl⟩

lemma createFallbackBuild_result_shape (env : BuildEnv) (o b : String)
    (rd : Option RepoData) (fs : FS) :
    (ContainerBuildEngine.createFallbackBuild env o b rd fs).1
      = { success := true, imageId := some (containerImageName b), error := none } ∨
    ∃ m, m ≠ "" ∧ (ContainerBuildEngine.createFallbackBuild env o b rd fs).1
      = { success := false, imageId := none, error := some m } := by
  cases hw : fs.writeFile ((buildDirectory ++ [b]) ++ ["Dockerfile"]) fallbackDockerfile with
  | error msg =>
    simp only [ContainerBuildEngine.createFallbackBuild, hw]
    exact .inr (fallbackCatch_shape _)
  | ok fs1 =>
    cases he : env.fallbackExec with
    | fail msg =>
      simp only [ContainerBuildEngine.createFallbackBuild, hw, he]
      exact .inr (fallbackCatch_shape _)
    | ok so se =>
      cases hi : env.fallbackImages with
      | fail msg =>
        simp only [ContainerBuildEngine.createFallbackBuild, hw, he, hi]
        exact .inr (fallbackCatch_shape _)
      | ok io se2 =>
        by_cases ht : jsTrim io = ""
        · simp only [ContainerBuildEngine.createFallbackBuild, hw, he, hi, if_pos ht]
          exact .inr (fallbackCatch_shape _)
        · simp only [ContainerBuildEngine.createFallbackBuild, hw, he, hi, if_neg ht]
          exact .inl trivial

lemma createFallbackBuild_error_shape (env : BuildEnv) (o b : String)
    (rd : Option RepoData) (fs : FS)
    (h : (ContainerBuildEngine.createFallbackBuild env o b rd fs).1.success = false) :
    ∃ m, (ContainerBuildEngine.createFallbackBuild env o b rd fs).1.error
      = some ("Both original and fallback builds failed: " ++ m) := by
  cases hw : fs.writeFile ((buildDirectory ++ [b]) ++ ["Dockerfile"]) fallbackDockerfile with
  | error msg =>
    simp only [ContainerBuildEngine.createFallbackBuild, hw]
    exact ⟨msg, rfl⟩
  | ok fs1 =>
    cases he : env.fallbackExec with
    | fail msg =>
      simp only [ContainerBuildEngine.createFallbackBuild, hw, he]
      exact ⟨msg, rfl⟩
    | ok so se =>
      cases hi : env.fallbackImages with
      | fail msg =>
        simp only [ContainerBuildEngine.createFallbackBuild, hw, he, hi]
        exact ⟨msg, rfl⟩
      | ok io se2 =>
        by_cases ht : jsTrim io = ""
        · simp only [ContainerBuildEngine.createFallbackBuild, hw, he, hi, if_pos ht]
          exact ⟨"Fallback Docker image was not created successfully", rfl⟩
        · simp only [ContainerBuildEngine.createFallbackBuild, hw, he, hi, if_neg ht] at h
          exact absurd h (by decide)


lemma writeFile_ok (fs : FS) (p : FPath) (c : String)
    (h : fs.dirExists p.dropLast = true) :
    fs.writeFile p c
      = .ok { fs with files := (p, c) :: fs.files.filter (fun e => e.1 ≠ p) } := by
  simp [FS.writeFile, h]

lemma dirExists_mkdir_self (fs : FS) (a x : String) :
    (fs.mkdirRecursive [a, x]).dirExists [a, x] = true := by
  simp [FS.mkdirRecursive, FS.dirExists, pathAncestors]

lemma dropLast_concat_path (l : FPath) (x : String) : (l ++ [x]).dropLast = l := by
  simp

lemma materializePackageJson_ok (ws : FPath) (rd : Option RepoData) (fs : FS)
    (h : fs.dirExists ws = true) :
    ∃ fs', ContainerBuildEngine.materializePackageJson ws rd fs = .ok fs' ∧
      fs'.dirs = fs.dirs ∧
      ∀ p cc, (p, cc) ∈ fs'.files → (p, cc) ∈ fs.files ∨ p = ws ++ ["package.json"] := by
  unfold ContainerBuildEngine.materializePackageJson
  by_cases hex : ContainerBuildEngine.fileExists fs (ws ++ ["package.json"]) = true
  · exact ⟨fs, by simp [hex], rfl, fun p cc hp => .inl hp⟩
  · have hd : fs.dirExists (ws ++ ["package.json"]).dropLast = true := by
      rw [dropLast_concat_path]; exact h
    have hw := writeFile_ok fs (ws ++ ["package.json"])
      (Json.stringify (ContainerBuildEngine.createPackageJson rd)) hd
    refine ⟨{ fs with files :=
        (ws ++ ["package.json"], Json.stringify (ContainerBuildEngine.createPackageJson rd)) ::
          fs.files.filter (fun e => e.1 ≠ ws ++ ["package.json"]) }, ?_, rfl, ?_⟩
    · rw [if_neg hex]
      exact hw
    · intro p cc hp
      rcases List.mem_cons.mp hp with h1 | h2
      · right
        exact congrArg Prod.fst h1
      · left
        exact List.mem_of_mem_filter h2

lemma createSourceFiles_ok (ws : FPath) (rd : Option RepoData) (fs : FS)
    (h : fs.dirExists ws = true) :
    ∃ fs', ContainerBuildEngine.createSourceFiles ws rd fs = .ok fs' ∧
      fs'.dirs = fs.dirs ∧
      ∀ p cc, (p, cc) ∈ fs'.files → (p, cc) ∈ fs.files ∨ p = ws ++ ["index.js"] := by
  unfold ContainerBuildEngine.createSourceFiles
  by_cases hex : ContainerBuildEngine.fileExists fs (ws ++ ["index.js"]) = true
  · exact ⟨fs, by simp [hex], rfl, fun p cc hp => .inl hp⟩
  · have hd : fs.dirExists (ws ++ ["index.js"]).dropLast = true := by
      rw [dropLast_concat_path]; exact h
    have hw := writeFile_ok fs (ws ++ ["index.js"]) indexJsContent hd
    refine ⟨{ fs with files :=
        (ws ++ ["index.js"], indexJsContent) ::
          fs.files.filter (fun e => e.1 ≠ ws ++ ["index.js"]) }, ?_, rfl, ?_⟩
    · rw [if_neg hex]
      exact hw
    · intro p cc hp
      rcases List.mem_cons.mp hp with h1 | h2
      · right
        exact congrArg Prod.fst h1
      · left
        exact List.mem_of_mem_filter h2

lemma writeFile_ok_spec (fs : FS) (p0 : FPath) (c : String)
    (h : fs.dirExists p0.dropLast = true) :
    ∃ fs', fs.writeFile p0 c = .ok fs' ∧ fs'.dirs = fs.dirs ∧
      ∀ p cc, (p, cc) ∈ fs'.files → (p, cc) ∈ fs.files ∨ p = p0 := by
  refine ⟨{ fs with files := (p0, c) :: fs.files.filter (fun e => e.1 ≠ p0) },
    writeFile_ok fs p0 c h, rfl, ?_⟩
  intro p cc hp
  rcases List.mem_cons.mp hp with h1 | h2
  · right
    exact congrArg Prod.fst h1
  · left
    exact List.mem_of_mem_filter h2

lemma dirExists_congr {fs fs' : FS} (h : fs'.dirs = fs.dirs) (p : FPath) :
    fs'.dirExists p = fs.dirExists p := by
  simp [FS.dirExists, h]

lemma buildImage_valid_path (env : BuildEnv) (c b : String) (rd : Option RepoData)
    (fs : FS) (hval : (env.validate c).isValid = true) :
    ∃ fs5 : FS,
      fs5.dirs = pathAncestors (buildDirectory ++ [env.uniqueBuildId]) ++ fs.dirs ∧
      (∀ p cc, (p, cc) ∈ fs5.files → (p, cc) ∈ fs.files ∨
        (buildDirectory ++ [env.uniqueBuildId]) <+: p) ∧
      ContainerBuildEngine.buildImage env c b rd fs =
        (match env.primaryExec with
         | .fail msg => (primaryCatch msg, fs5)
         | .ok _ stderr =>
           match stderrCheck stderr with
           | .error msg => (primaryCatch msg, fs5)
           | .ok _ =>
             match env.primaryImages with
             | .fail msg => (primaryCatch msg, fs5)
             | .ok imagesOutput _ =>
               if jsTrim imagesOutput = "" then
                 (primaryCatch "Docker image was not created successfully", fs5)
               else
                 ({ success := true, imageId := some (containerImageName b),
                    error := none },
                  fs5.rmRecursive (buildDirectory ++ [env.uniqueBuildId]))) := by
  have h1 : (fs.mkdirRecursive (buildDirectory ++ [env.uniqueBuildId])).dirExists
      (buildDirectory ++ [env.uniqueBuildId]) = true :=
    dirExists_mkdir_self fs "temp" env.uniqueBuildId
  obtain ⟨fs2, hw2, hd2, hΔ2⟩ :=
    writeFile_ok_spec (fs.mkdirRecursive (buildDirectory ++ [env.uniqueBuildId]))
      ((buildDirectory ++ [env.uniqueBuildId]) ++ ["Dockerfile"]) c
      (by rw [dropLast_concat_path]; exact h1)
  have h2 : fs2.dirExists (buildDirectory ++ [env.uniqueBuildId]) = true := by
    rw [dirExists_congr hd2]; exact h1
  obtain ⟨fs3, hw3, hd3, hΔ3⟩ :=
    writeFile_ok_spec fs2 ((buildDirectory ++ [env.uniqueBuildId]) ++ [".dockerignore"])
      dockerignoreContent (by rw [dropLast_concat_path]; exact h2)
  have h3 : fs3.dirExists (buildDirectory ++ [env.uniqueBuildId]) = true := by
    rw [dirExists_congr hd3]; exact h2
  obtain ⟨fs4, hm4, hd4, hΔ4⟩ :=
    materializePackageJson_ok (buildDirectory ++ [env.uniqueBuildId]) rd fs3 h3
  have h4 : fs4.dirExists (buildDirectory ++ [env.uniqueBuildId]) = true := by
    rw [dirExists_congr hd4]; exact h3
  obtain ⟨fs5, hs5, hd5, hΔ5⟩ :=
    createSourceFiles_ok (buildDirectory ++ [env.uniqueBuildId]) rd fs4 h4
  have hw3' : ContainerBuildEngine.createDockerignore
      (buildDirectory ++ [env.uniqueBuildId]) fs2 = .ok fs3 := hw3
  refine ⟨fs5, ?_, ?_, ?_⟩
  · rw [hd5, hd4, hd3, hd2]
    rfl
  · intro p cc hp
    rcases hΔ5 p cc hp with hp4 | rfl
    · rcases hΔ4 p cc hp4 with hp3 | rfl
      · rcases hΔ3 p cc hp3 with hp2 | rfl
        · rcases hΔ2 p cc hp2 with hp1 | rfl
          · exact .inl hp1
          · exact .inr (List.prefix_append _ _)
        · exact .inr (List.prefix_append _ _)
      · exact .inr (List.prefix_append _ _)
    · exact .inr (List.prefix_append _ _)
  · simp only [ContainerBuildEngine.buildImage, hval, Bool.not_true, Bool.false_eq_true,
      if_false, hw2, hw3', hm4, hs5]

lemma buildImage_invalid_path (env : BuildEnv) (c b : String) (rd : Option RepoData)
    (fs : FS) (hinv : (env.validate c).isValid = false) :
    ContainerBuildEngine.buildImage env c b rd fs =
      ContainerBuildEngine.createFallbackBuild env c b rd
        (fs.mkdirRecursive (buildDirectory ++ [env.uniqueBuildId])) := by
  simp [ContainerBuildEngine.buildImage, hinv]

lemma createFallbackBuild_fs_after_write (env : BuildEnv) (o b : String)
    (rd : Option RepoData) (fs fs1 : FS)
    (hw : fs.writeFile ((buildDirectory ++ [b]) ++ ["Dockerfile"]) fallbackDockerfile
      = .ok fs1) :
    (ContainerBuildEngine.createFallbackBuild env o b rd fs).2 = fs1 := by
  cases he : env.fallbackExec with
  | fail m =>
    simp only [ContainerBuildEngine.createFallbackBuild, hw, he]
  | ok so se =>
    cases hi : env.fallbackImages with
    | fail m =>
      simp only [ContainerBuildEngine.createFallbackBuild, hw, he, hi]
    | ok io se2 =>
      by_cases ht : jsTrim io = ""
      · simp only [ContainerBuildEngine.createFallbackBuild, hw, he, hi, if_pos ht]
      · simp only [ContainerBuildEngine.createFallbackBuild, hw, he, hi, if_neg ht]

lemma createFallbackBuild_enoent (env : BuildEnv) (o b : String)
    (rd : Option RepoData) (fs : FS)
    (h : fs.dirExists (buildDirectory ++ [b]) = false) :
    ContainerBuildEngine.createFallbackBuild env o b rd fs
      = (fallbackCatch enoentMessage, fs) := by
  have hw : fs.writeFile ((buildDirectory ++ [b]) ++ ["Dockerfile"]) fallbackDockerfile
      = .error enoentMessage := by
    unfold FS.writeFile
    rw [dropLast_concat_path]
    rw [if_neg (by simp [h])]
  simp only [ContainerBuildEngine.createFallbackBuild, hw]

lemma createFallbackBuild_result_congr (env : BuildEnv) (o b : String)
    (rd : Option RepoData) (fs fs' : FS)
    (h : fs.dirExists (buildDirectory ++ [b]) = fs'.dirExists (buildDirectory ++ [b])) :
    (ContainerBuildEngine.createFallbackBuild env o b rd fs).1 =
    (ContainerBuildEngine.createFallbackBuild env o b rd fs').1 := by
  by_cases hd : fs.dirExists (buildDirectory ++ [b]) = true
  · have hd' : fs'.dirExists (buildDirectory ++ [b]) = true := by rw [← h]; exact hd
    obtain ⟨fs1, hw1, _, _⟩ :=
      writeFile_ok_spec fs ((buildDirectory ++ [b]) ++ ["Dockerfile"]) fallbackDockerfile
        (by rw [dropLast_concat_path]; exact hd)
    obtain ⟨fs1', hw1', _, _⟩ :=
      writeFile_ok_spec fs' ((buildDirectory ++ [b]) ++ ["Dockerfile"]) fallbackDockerfile
        (by rw [dropLast_concat_path]; exact hd')
    cases he : env.fallbackExec with
    | fail m =>
      simp only [ContainerBuildEngine.createFallbackBuild, hw1, hw1', he]
    | ok so se =>
      cases hi : env.fallbackImages with
      | fail m =>
        simp only [ContainerBuildEngine.createFallbackBuild, hw1, hw1', he, hi]
      | ok io se2 =>
        by_cases ht : jsTrim io = ""
        · simp only [ContainerBuildEngine.createFallbackBuild, hw1, hw1', he, hi, if_pos ht]
        · simp only [ContainerBuildEngine.createFallbackBuild, hw1, hw1', he, hi, if_neg ht]
  · have hdf : fs.dirExists (buildDirectory ++ [b]) = false := by
      simpa using hd
    have hdf' : fs'.dirExists (buildDirectory ++ [b]) = false := by
      rw [← h]; exact hdf
    rw [createFallbackBuild_enoent env o b rd fs hdf,
      createFallbackBuild_enoent env o b rd fs' hdf']

lemma dirExists_mkdir_other (fs : FS) (u : String) (p : FPath)
    (hne : p ≠ ["temp", u]) (hne2 : p ≠ ["temp"]) :
    (fs.mkdirRecursive ["temp", u]).dirExists p = fs.dirExists p := by
  simp [FS.mkdirRecursive, FS.dirExists, pathAncestors, hne, hne2]

lemma createFallbackBuild_frame (env : BuildEnv) (o b : String)
    (rd : Option RepoData) (fs : FS) :
    ((ContainerBuildEngine.createFallbackBuild env o b rd fs).2).dirs = fs.dirs ∧
    (∀ p cc, (p, cc) ∈ ((ContainerBuildEngine.createFallbackBuild env o b rd fs).2).files →
      (p, cc) ∈ fs.files ∨
        (p = (buildDirectory ++ [b]) ++ ["Dockerfile"] ∧ cc = fallbackDockerfile)) ∧
    (∀ p cc, (p, cc) ∈ fs.files → p ≠ (buildDirectory ++ [b]) ++ ["Dockerfile"] →
      (p, cc) ∈ ((ContainerBuildEngine.createFallbackBuild env o b rd fs).2).files) := by
  by_cases hd : fs.dirExists (buildDirectory ++ [b]) = true
  · have hw := writeFile_ok fs ((buildDirectory ++ [b]) ++ ["Dockerfile"]) fallbackDockerfile
      (by rw [dropLast_concat_path]; exact hd)
    have hfs := createFallbackBuild_fs_after_write env o b rd fs _ hw
    rw [hfs]
    refine ⟨rfl, ?_, ?_⟩
    · intro p cc hp
      rcases List.mem_cons.mp hp with h1 | h2
      · right
        exact ⟨congrArg Prod.fst h1, congrArg Prod.snd h1⟩
      · left
        exact List.mem_of_mem_filter h2
    · intro p cc hp hne
      exact List.mem_cons_of_mem _ (List.mem_filter.mpr ⟨hp, decide_eq_true hne⟩)
  · have hdf : fs.dirExists (buildDirectory ++ [b]) = false := by simpa using hd
    rw [createFallbackBuild_enoent env o b rd fs hdf]
    exact ⟨rfl, fun p cc hp => .inl hp, fun p cc hp _ => hp⟩

lemma materializePackageJson_idem (ws : FPath) (rd : Option RepoData) (fs fs' : FS)
    (h : ContainerBuildEngine.materializePackageJson ws rd fs = .ok fs') :
    ContainerBuildEngine.materializePackageJson ws rd fs' = .ok fs' := by
  unfold ContainerBuildEngine.materializePackageJson at *
  by_cases hex : ContainerBuildEngine.fileExists fs (ws ++ ["package.json"]) = true
  · rw [if_pos hex] at h
    cases h
    rw [if_pos hex]
  · rw [if_neg hex] at h
    unfold FS.writeFile at h
    by_cases hdir : fs.dirExists (ws ++ ["package.json"]).dropLast = true
    · rw [if_pos hdir] at h
      cases h
      have hex' : ContainerBuildEngine.fileExists
          { fs with files := (ws ++ ["package.json"],
              Json.stringify (ContainerBuildEngine.createPackageJson rd)) ::
              fs.files.filter (fun e => e.1 ≠ ws ++ ["package.json"]) }
          (ws ++ ["package.json"]) = true := by
        simp [ContainerBuildEngine.fileExists, FS.accessOk, FS.fileIsPresent]
      rw [if_pos hex']
    · rw [if_neg hdir] at h
      cases h

lemma materializePackageJson_writes (ws : FPath) (rd : Option RepoData) (fs fs' : FS)
    (hex : ContainerBuildEngine.fileExists fs (ws ++ ["package.json"]) = false)
    (h : ContainerBuildEngine.materializePackageJson ws rd fs = .ok fs') :
    fs'.read (ws ++ ["package.json"])
      = some (Json.stringify (ContainerBuildEngine.createPackageJson rd)) := by
  unfold ContainerBuildEngine.materializePackageJson at h
  rw [if_neg (by simp [hex])] at h
  unfold FS.writeFile at h
  by_cases hdir : fs.dirExists (ws ++ ["package.json"]).dropLast = true
  · rw [if_pos hdir] at h
    cases h
    simp [FS.read]
  · rw [if_neg hdir] at h
    cases h

lemma stderrCheck_error_nonempty (se msg : String) (h : stderrCheck se = .error msg) :
    msg ≠ "" := by
  unfold stderrCheck at h
  by_cases hs : se ≠ ""
  · rw [if_pos hs] at h
    by_cases hcrit : classifyCriticalStderr se = true
    · rw [if_pos hcrit] at h
      cases h
      exact append_ne_empty_of_left _ _ (by decide)
    · rw [if_neg hcrit] at h
      cases h
  · rw [if_neg hs] at h
    cases h

lemma buildImage_result_shape (env : BuildEnv) (c b : String) (rd : Option RepoData)
    (fs : FS) (hwf : env.wellFormed) :
    (ContainerBuildEngine.buildImage env c b rd fs).1
      = { success := true, imageId := some (containerImageName b), error := none } ∨
    ∃ m, m ≠ "" ∧ (ContainerBuildEngine.buildImage env c b rd fs).1
      = { success := false, imageId := none, error := some m } := by
  by_cases hval : (env.validate c).isValid = true
  · obtain ⟨fs5, _, _, heq⟩ := buildImage_valid_path env c b rd fs hval
    rw [heq]
    cases hp : env.primaryExec with
    | fail msg =>
      simp only [hp]
      right
      refine ⟨msg, ?_, rfl⟩
      have hne := hwf.1
      rw [hp] at hne
      simpa [ExecResult.failMsgNonempty] using hne
    | ok so se =>
      simp only [hp]
      cases hc : stderrCheck se with
      | error msg =>
        simp only [hc]
        exact .inr ⟨msg, stderrCheck_error_nonempty se msg hc, rfl⟩
      | ok u =>
        simp only [hc]
        cases hi : env.primaryImages with
        | fail msg =>
          simp only [hi]
          right
          refine ⟨msg, ?_, rfl⟩
          have hne := hwf.2.1
          rw [hi] at hne
          simpa [ExecResult.failMsgNonempty] using hne
        | ok io ie =>
          simp only [hi]
          by_cases ht : jsTrim io = ""
          · rw [if_pos ht]
            exact .inr ⟨_, by decide, rfl⟩
          · rw [if_neg ht]
            exact .inl rfl
  · have hinv : (env.validate c).isValid = false := by simpa using hval
    rw [buildImage_invalid_path env c b rd fs hinv]
    exact createFallbackBuild_result_shape env c b rd _

/-- C4: an attempt is classified as failed by the diagnostic-stream check
exactly when the stream contains the error marker `ERROR` and does not
also contain the success marker `Successfully built`; a stream with both
markers is classified as success, a stream with only the error marker as
failure (the two literal scenarios of the spec included). -/
theorem stderr_classification_tiebreak (stderr : String) :
    (stderrCheck stderr = .error ("Docker build failed: " ++ stderr) ↔
      (jsIncludes stderr "ERROR" = true ∧ jsIncludes stderr "Successfully built" = false)) ∧
    stderrCheck "ERROR: deprecated flag\nSuccessfully built abc123" = .ok () ∧
    stderrCheck "ERROR: no such file"
      = .error ("Docker build failed: " ++ "ERROR: no such file") := by
  refine ⟨⟨?_, ?_⟩, by rfl, by rfl⟩
  · intro h
    unfold stderrCheck at h
    by_cases hs : stderr ≠ ""
    · rw [if_pos hs] at h
      by_cases hcrit : classifyCriticalStderr stderr = true
      · exact by simpa [classifyCriticalStderr] using hcrit
      · rw [if_neg hcrit] at h
        cases h
    · rw [if_neg hs] at h
      cases h
  · rintro ⟨h1, h2⟩
    have hs : stderr ≠ "" := by
      intro he
      rw [he] at h1
      exact absurd h1 (by decide)
    unfold stderrCheck
    rw [if_pos hs, if_pos (by simp [classifyCriticalStderr, h1, h2])]

/-- C2: every result the pipeline returns satisfies the two-shape
contract: `success = true` iff the artifact id is a present non-empty
string equal to `dockgen-ai-<buildId>:latest`, `success = false` iff the
error message is present and non-empty, and no other field combination is
producible on either path (environments whose exec rejections carry
non-empty messages, as Node guarantees). -/
theorem buildResult_contract (env : BuildEnv) (c b : String) (rd : Option RepoData)
    (fs : FS) (hwf : env.wellFormed) :
    ((ContainerBuildEngine.buildImage env c b rd fs).1.success = true ↔
      ∃ s, (ContainerBuildEngine.buildImage env c b rd fs).1.imageId = some s ∧
        s ≠ "" ∧ s = "dockgen-ai-" ++ b ++ ":latest") ∧
    ((ContainerBuildEngine.buildImage env c b rd fs).1.success = false ↔
      ∃ m, (ContainerBuildEngine.buildImage env c b rd fs).1.error = some m ∧ m ≠ "") ∧
    ((ContainerBuildEngine.buildImage env c b rd fs).1.success = true →
      (ContainerBuildEngine.buildImage env c b rd fs).1.error = none) ∧
    ((ContainerBuildEngine.buildImage env c b rd fs).1.success = false →
      (ContainerBuildEngine.buildImage env c b rd fs).1.imageId = none) := by
  rcases buildImage_result_shape env c b rd fs hwf with hs | ⟨m, hm, hs⟩
  · rw [hs]
    refine ⟨?_, ?_, ?_, ?_⟩
    · exact ⟨fun _ => ⟨containerImageName b, rfl,
        append_ne_empty_of_left _ _ (append_ne_empty_of_left _ _ (by decide)), rfl⟩,
        fun _ => rfl⟩
    · constructor
      · intro hfalse
        simp at hfalse
      · rintro ⟨m, hm1, hm2⟩
        exact Option.noConfusion hm1
    · intro _
      rfl
    · intro hfalse
      simp at hfalse
  · rw [hs]
    refine ⟨?_, ?_, ?_, ?_⟩
    · constructor
      · intro htrue
        simp at htrue
      · rintro ⟨s, hs1, _, _⟩
        exact Option.noConfusion hs1
    · exact ⟨fun _ => ⟨m, rfl, hm⟩, fun _ => rfl⟩
    · intro htrue
      simp at htrue
    · intro _
      rfl

/-- Witness for C2 at a concrete successful run. -/
theorem buildResult_contract_witness :
    (ContainerBuildEngine.buildImage envHappy "FROM node:18" "b" none fsTempOnly).1.error
      = none := by
  have h := buildResult_contract envHappy "FROM node:18" "b" none fsTempOnly
    ⟨by decide, by decide, by decide, by decide⟩
  exact h.2.2.1 (by decide)

/-- C6: after the build tool reports success, the executor queries the
image store for the expected tag; an empty returned identifier makes the
attempt a failure even though the tool's own signals suggested success —
on the primary path and on the fallback path alike. -/
theorem image_verification_both_paths :
    (∀ env c b rd fs stdout stderr imagesOut imagesErr,
      (env.validate c).isValid = true →
      env.primaryExec = .ok stdout stderr →
      stderrCheck stderr = .ok () →
      env.primaryImages = .ok imagesOut imagesErr →
      jsTrim imagesOut = "" →
      (ContainerBuildEngine.buildImage env c b rd fs).1
        = { success := false, imageId := none,
            error := some "Docker image was not created successfully" }) ∧
    (∀ env o b rd fs fbOut fbErr imagesOut imagesErr,
      fs.dirExists (buildDirectory ++ [b]) = true →
      env.fallbackExec = .ok fbOut fbErr →
      env.fallbackImages = .ok imagesOut imagesErr →
      jsTrim imagesOut = "" →
      (ContainerBuildEngine.createFallbackBuild env o b rd fs).1
        = { success := false, imageId := none,
            error := some ("Both original and fallback builds failed: " ++
              "Fallback Docker image was not created successfully") }) := by
  constructor
  · intro env c b rd fs stdout stderr io ie hval hexec hchk himg htrim
    obtain ⟨fs5, _, _, heq⟩ := buildImage_valid_path env c b rd fs hval
    rw [heq]
    simp only [hexec, hchk, himg, if_pos htrim]
    rfl
  · intro env o b rd fs fo fe io ie hdir hexec himg htrim
    have hw := writeFile_ok fs ((buildDirectory ++ [b]) ++ ["Dockerfile"]) fallbackDockerfile
      (by rw [dropLast_concat_path]; exact hdir)
    simp only [ContainerBuildEngine.createFallbackBuild, hw, hexec, himg, if_pos htrim]
    rfl

/-- Witness for C6 at concrete runs on both paths. -/
theorem image_verification_witness :
    (ContainerBuildEngine.buildImage envNoImage "FROM node:18" "b" none fsTempOnly).1
      = { success := false, imageId := none,
          error := some "Docker image was not created successfully" } ∧
    (ContainerBuildEngine.createFallbackBuild envNoImage "orig" "b" none
        (fsWithFallbackDir "b")).1
      = { success := false, imageId := none,
          error := some ("Both original and fallback builds failed: " ++
            "Fallback Docker image was not created successfully") } := by
  constructor
  · exact image_verification_both_paths.1 envNoImage "FROM node:18" "b" none fsTempOnly
      "build output" "" "\n" "" (by decide) rfl (by rfl) rfl (by decide)
  · exact image_verification_both_paths.2 envNoImage "orig" "b" none
      (fsWithFallbackDir "b") "fallback output" "" "\n" "" (by decide) rfl rfl (by decide)

/-- C1 counterexample: validation passes, the builder invocation rejects
(timeout), the fallback would succeed — yet the pipeline returns the
failure directly and never invokes the fallback, contradicting the claim
that the fallback's (successful) result is returned. -/
theorem exec_failure_no_fallback_counterexample :
    (ContainerBuildEngine.buildImage envExecFails "FROM node:18" "b" none
        (fsWithFallbackDir "b")).1
      = { success := false, imageId := none,
          error := some "Command failed: docker build (timed out after 300000 ms)" } ∧
    (ContainerBuildEngine.createFallbackBuild envExecFails "FROM node:18" "b" none
        (fsWithFallbackDir "b")).1
      = { success := true, imageId := some "dockgen-ai-b:latest", error := none } := by
  exact ⟨by decide, by decide⟩

/-- C1 (amended): when validation passes and the external build execution
fails — whether the builder invocation rejects (non-zero exit or the
timeout firing) or it resolves with an error-classified diagnostic
stream — the pipeline returns `success = false` carrying that failure's
message and does not invoke the Fallback Strategy: every file such a run
writes lies under the primary workspace (the fallback is invoked only on
validation failure). -/
theorem exec_failure_returns_failure :
    (∀ env c b rd fs msg,
      (env.validate c).isValid = true →
      env.primaryExec = .fail msg →
      (ContainerBuildEngine.buildImage env c b rd fs).1
        = { success := false, imageId := none, error := some msg } ∧
      ∀ p cc, (p, cc) ∈ ((ContainerBuildEngine.buildImage env c b rd fs).2).files →
        (p, cc) ∈ fs.files ∨ (buildDirectory ++ [env.uniqueBuildId]) <+: p) ∧
    (∀ env c b rd fs stdout stderr,
      (env.validate c).isValid = true →
      env.primaryExec = .ok stdout stderr →
      classifyCriticalStderr stderr = true →
      (ContainerBuildEngine.buildImage env c b rd fs).1
        = { success := false, imageId := none,
            error := some ("Docker build failed: " ++ stderr) } ∧
      ∀ p cc, (p, cc) ∈ ((ContainerBuildEngine.buildImage env c b rd fs).2).files →
        (p, cc) ∈ fs.files ∨ (buildDirectory ++ [env.uniqueBuildId]) <+: p) := by
  constructor
  · intro env c b rd fs msg hval hexec
    obtain ⟨fs5, hdirs, hdelta, heq⟩ := buildImage_valid_path env c b rd fs hval
    rw [heq]
    simp only [hexec]
    exact ⟨rfl, hdelta⟩
  · intro env c b rd fs stdout stderr hval hexec hcrit
    obtain ⟨fs5, hdirs, hdelta, heq⟩ := buildImage_valid_path env c b rd fs hval
    have hne : stderr ≠ "" := by
      intro he
      rw [he] at hcrit
      exact absurd hcrit (by decide)
    have hchk : stderrCheck stderr = .error ("Docker build failed: " ++ stderr) := by
      unfold stderrCheck
      rw [if_pos hne, if_pos hcrit]
    rw [heq]
    simp only [hexec, hchk]
    exact ⟨rfl, hdelta⟩

/-- Witness for C1 (amended): a concrete timed-out run and a concrete
exit-0 run with an error-classified diagnostic stream. -/
theorem exec_failure_returns_failure_witness :
    ((envExecFails.validate "FROM node:18").isValid = true ∧
     (ContainerBuildEngine.buildImage envExecFails "FROM node:18" "b" none fsTempOnly).1
       = { success := false, imageId := none,
           error := some "Command failed: docker build (timed out after 300000 ms)" }) ∧
    (classifyCriticalStderr "ERROR: no such file" = true ∧
     (ContainerBuildEngine.buildImage envStderrCritical "FROM node:18" "b" none
         fsTempOnly).1
       = { success := false, imageId := none,
           error := some ("Docker build failed: " ++ "ERROR: no such file") }) :=
  ⟨⟨by decide, (exec_failure_returns_failure.1 envExecFails "FROM node:18" "b" none
      fsTempOnly "Command failed: docker build (timed out after 300000 ms)"
      (by decide) rfl).1⟩,
   ⟨by decide, (exec_failure_returns_failure.2 envStderrCritical "FROM node:18" "b" none
      fsTempOnly "build output" "ERROR: no such file" (by decide) rfl (by decide)).1⟩⟩

/-- C3: when validation fails, the pipeline's returned result equals the
result of running the fallback path alone on the same build id (on the
same initial filesystem, the fresh workspace token differing from the
build id), and the rejected original text is written into no workspace —
the run's only possible new file is the fixed fallback Dockerfile. -/
theorem validation_failure_pure_redirect (env : BuildEnv) (c b : String)
    (rd : Option RepoData) (fs : FS)
    (hinv : (env.validate c).isValid = false)
    (hneq : env.uniqueBuildId ≠ b) :
    (ContainerBuildEngine.buildImage env c b rd fs).1
      = (ContainerBuildEngine.createFallbackBuild env c b rd fs).1 ∧
    (∀ p cc, (p, cc) ∈ ((ContainerBuildEngine.buildImage env c b rd fs).2).files →
      (p, cc) ∈ fs.files ∨
        (p = (buildDirectory ++ [b]) ++ ["Dockerfile"] ∧ cc = fallbackDockerfile)) ∧
    (c ≠ fallbackDockerfile →
      ∀ p, (p, c) ∈ ((ContainerBuildEngine.buildImage env c b rd fs).2).files →
        (p, c) ∈ fs.files) := by
  have heq := buildImage_invalid_path env c b rd fs hinv
  have hdir : (fs.mkdirRecursive (buildDirectory ++ [env.uniqueBuildId])).dirExists
      (buildDirectory ++ [b]) = fs.dirExists (buildDirectory ++ [b]) := by
    apply dirExists_mkdir_other
    · intro hcontra
      have hb : b = env.uniqueBuildId := by simpa [buildDirectory] using hcontra
      exact hneq hb.symm
    · simp [buildDirectory]
  refine ⟨?_, ?_, ?_⟩
  · rw [heq]
    exact createFallbackBuild_result_congr env c b rd _ fs hdir
  · intro p cc hp
    rw [heq] at hp
    exact (createFallbackBuild_frame env c b rd
      (fs.mkdirRecursive (buildDirectory ++ [env.uniqueBuildId]))).2.1 p cc hp
  · intro hne p hp
    rw [heq] at hp
    rcases (createFallbackBuild_frame env c b rd
        (fs.mkdirRecursive (buildDirectory ++ [env.uniqueBuildId]))).2.1 p c hp with
      hmem | ⟨_, hcc⟩
    · exact hmem
    · exact absurd hcc hne

/-- Witness for C3 at a concrete invalid-Dockerfile run. -/
theorem validation_failure_pure_redirect_witness :
    (envInvalidFallbackOk.validate "no base image").isValid = false ∧
    (ContainerBuildEngine.buildImage envInvalidFallbackOk "no base image" "b" none
        (fsWithFallbackDir "b")).1
      = (ContainerBuildEngine.createFallbackBuild envInvalidFallbackOk "no base image" "b"
          none (fsWithFallbackDir "b")).1 :=
  ⟨by decide, (validation_failure_pure_redirect envInvalidFallbackOk "no base image" "b" none
    (fsWithFallbackDir "b") (by decide) (by decide)).1⟩

/-- C5 counterexample: after an invocation whose validation fails, the
workspace directory created for that invocation (`temp/wstoken`) still
exists on disk. -/
theorem workspace_persists_counterexample :
    ["temp", "wstoken"] ∈ ((ContainerBuildEngine.buildImage envInvalidFallbackOk
      "no base image" "b" none fsTempOnly).2).dirs := by
  decide

/-- C5 (amended): the workspace directory is removed exactly when the
primary path runs to full success: on the valid-validation path the
workspace exists after return iff the result is a failure (execution
rejection or timeout, error-classified diagnostic stream, or failed
image-store verification), and after a validation-failure invocation it
always still exists. -/
theorem workspace_cleanup_amended :
    (∀ env c b rd fs,
      (env.validate c).isValid = true →
      (((ContainerBuildEngine.buildImage env c b rd fs).1.success = true →
        (buildDirectory ++ [env.uniqueBuildId]) ∉
          ((ContainerBuildEngine.buildImage env c b rd fs).2).dirs) ∧
       ((ContainerBuildEngine.buildImage env c b rd fs).1.success = false →
        (buildDirectory ++ [env.uniqueBuildId]) ∈
          ((ContainerBuildEngine.buildImage env c b rd fs).2).dirs))) ∧
    (∀ env c b rd fs,
      (env.validate c).isValid = false →
      (buildDirectory ++ [env.uniqueBuildId]) ∈
        ((ContainerBuildEngine.buildImage env c b rd fs).2).dirs) := by
  constructor
  · intro env c b rd fs hval
    obtain ⟨fs5, hdirs, _, heq⟩ := buildImage_valid_path env c b rd fs hval
    have hmem5 : (buildDirectory ++ [env.uniqueBuildId]) ∈ fs5.dirs := by
      rw [hdirs]
      simp [buildDirectory, pathAncestors]
    have hnot : (buildDirectory ++ [env.uniqueBuildId]) ∉
        (fs5.rmRecursive (buildDirectory ++ [env.uniqueBuildId])).dirs := by
      intro hmem
      unfold FS.rmRecursive at hmem
      have h2 := (List.mem_filter.mp hmem).2
      have h3 := of_decide_eq_true h2
      exact h3 (List.isPrefixOf_iff_prefix.mpr (List.prefix_refl _))
    rw [heq]
    cases hp : env.primaryExec with
    | fail msg =>
      simp only [hp]
      exact ⟨fun h => by simp [primaryCatch] at h, fun _ => hmem5⟩
    | ok so se =>
      simp only [hp]
      cases hc : stderrCheck se with
      | error msg =>
        simp only [hc]
        exact ⟨fun h => by simp [primaryCatch] at h, fun _ => hmem5⟩
      | ok u =>
        simp only [hc]
        cases hi : env.primaryImages with
        | fail msg =>
          simp only [hi]
          exact ⟨fun h => by simp [primaryCatch] at h, fun _ => hmem5⟩
        | ok io ie =>
          simp only [hi]
          by_cases ht : jsTrim io = ""
          · rw [if_pos ht]
            exact ⟨fun h => by simp [primaryCatch] at h, fun _ => hmem5⟩
          · rw [if_neg ht]
            exact ⟨fun _ => hnot, fun h => by simp at h⟩
  · intro env c b rd fs hinv
    rw [buildImage_invalid_path env c b rd fs hinv]
    rw [(createFallbackBuild_frame env c b rd _).1]
    simp [FS.mkdirRecursive, pathAncestors, buildDirectory]

/-- Witness for C5 (amended): the workspace is gone after a successful
run, still present after a timed-out run, and still present after a
validation-failure run. -/
theorem workspace_cleanup_witness :
    ((buildDirectory ++ ["wstoken"]) ∉
      ((ContainerBuildEngine.buildImage envHappy "FROM node:18" "b" none
        fsTempOnly).2).dirs) ∧
    ((buildDirectory ++ ["wstoken"]) ∈
      ((ContainerBuildEngine.buildImage envExecFails "FROM node:18" "b" none
        fsTempOnly).2).dirs) ∧
    ((buildDirectory ++ ["wstoken"]) ∈
      ((ContainerBuildEngine.buildImage envInvalidFallbackOk "no base image" "b" none
        fsTempOnly).2).dirs) := by
  refine ⟨?_, ?_, ?_⟩
  · exact (workspace_cleanup_amended.1 envHappy "FROM node:18" "b" none fsTempOnly
      (by decide)).1 (by decide)
  · exact (workspace_cleanup_amended.1 envExecFails "FROM node:18" "b" none fsTempOnly
      (by decide)).2 (by decide)
  · exact workspace_cleanup_amended.2 envInvalidFallbackOk "no base image" "b" none
      fsTempOnly (by decide)

/-- C7 counterexample: the fallback writes into the directory named by the
caller-supplied build id under the shared build root — it creates no
workspace of its own (the filesystem's directories are unchanged, and
when `temp/<buildId>` is missing the attempt just fails), and the single
file it writes lands at the build-id-derived path. -/
theorem fallback_workspace_counterexample :
    (ContainerBuildEngine.createFallbackBuild envInvalidFallbackOk "orig" "b" none
        fsTempOnly).2 = fsTempOnly ∧
    (ContainerBuildEngine.createFallbackBuild envInvalidFallbackOk "orig" "b" none
        fsTempOnly).1.success = false ∧
    ((ContainerBuildEngine.createFallbackBuild envInvalidFallbackOk "orig" "b" none
        (fsWithFallbackDir "b")).2).files
      = [(["temp", "b", "Dockerfile"], fallbackDockerfile)] := by
  refine ⟨by decide, by decide, by rfl⟩

/-- C7 (amended): the fallback creates no workspace of its own: it leaves
the set of directories unchanged and its only possible write is the fixed
fallback Dockerfile at `temp/<buildId>/Dockerfile`, a path derived from
the caller-supplied build id, before delegating to the build executor. -/
theorem fallback_no_own_workspace (env : BuildEnv) (o b : String)
    (rd : Option RepoData) (fs : FS) :
    ((ContainerBuildEngine.createFallbackBuild env o b rd fs).2).dirs = fs.dirs ∧
    ∀ p cc, (p, cc) ∈ ((ContainerBuildEngine.createFallbackBuild env o b rd fs).2).files →
      (p, cc) ∈ fs.files ∨
        (p = (buildDirectory ++ [b]) ++ ["Dockerfile"] ∧ cc = fallbackDockerfile) :=
  ⟨(createFallbackBuild_frame env o b rd fs).1,
   (createFallbackBuild_frame env o b rd fs).2.1⟩

/-- C8 counterexample: validation fails with error `Missing FROM
directive`, the fallback build also fails — the returned message carries
only the fallback failure cause; the original failure cause appears
nowhere in it. -/
theorem both_failed_message_counterexample :
    (ContainerBuildEngine.buildImage envInvalidFallbackFails "no base image" "b" none
        (fsWithFallbackDir "b")).1.error
      = some "Both original and fallback builds failed: npm install failed" ∧
    jsIncludes "Both original and fallback builds failed: npm install failed"
      "Missing FROM directive" = false ∧
    (envInvalidFallbackFails.validate "no base image").errors
      = ["Missing FROM directive"] := by
  exact ⟨by decide, by decide, by decide⟩

lemma createFallbackBuild_env_congr (env env' : BuildEnv) (o o' b : String)
    (rd rd' : Option RepoData) (fs : FS)
    (hfe : env'.fallbackExec = env.fallbackExec)
    (hfi : env'.fallbackImages = env.fallbackImages) :
    ContainerBuildEngine.createFallbackBuild env' o' b rd' fs =
    ContainerBuildEngine.createFallbackBuild env o b rd fs := by
  unfold ContainerBuildEngine.createFallbackBuild
  rw [hfe, hfi]

/-- C8 (amended): when the pipeline reaches the fallback (validation
failed) and the fallback also fails, the result is the fallback's own
result and its message is exactly the fixed text `Both original and
fallback builds failed: ` followed by the fallback attempt's failure
message alone — the missing-directory error, the builder rejection
message, the image-query rejection message, or the fixed verification
text, mode by mode — and the result carries nothing of the original
failure cause: it is unchanged under any replacement of the validator
verdict (errors included) and of the original build-file text. -/
theorem both_failed_message_amended :
    (∀ env c b rd fs,
      (env.validate c).isValid = false →
      (ContainerBuildEngine.buildImage env c b rd fs).1
        = (ContainerBuildEngine.createFallbackBuild env c b rd
            (fs.mkdirRecursive (buildDirectory ++ [env.uniqueBuildId]))).1) ∧
    (∀ env o b rd fs,
      fs.dirExists (buildDirectory ++ [b]) = false →
      (ContainerBuildEngine.createFallbackBuild env o b rd fs).1.error
        = some ("Both original and fallback builds failed: " ++ enoentMessage)) ∧
    (∀ env o b rd fs msg,
      fs.dirExists (buildDirectory ++ [b]) = true →
      env.fallbackExec = .fail msg →
      (ContainerBuildEngine.createFallbackBuild env o b rd fs).1.error
        = some ("Both original and fallback builds failed: " ++ msg)) ∧
    (∀ env o b rd fs fbOut fbErr msg,
      fs.dirExists (buildDirectory ++ [b]) = true →
      env.fallbackExec = .ok fbOut fbErr →
      env.fallbackImages = .fail msg →
      (ContainerBuildEngine.createFallbackBuild env o b rd fs).1.error
        = some ("Both original and fallback builds failed: " ++ msg)) ∧
    (∀ env o b rd fs fbOut fbErr imagesOut imagesErr,
      fs.dirExists (buildDirectory ++ [b]) = true →
      env.fallbackExec = .ok fbOut fbErr →
      env.fallbackImages = .ok imagesOut imagesErr →
      jsTrim imagesOut = "" →
      (ContainerBuildEngine.createFallbackBuild env o b rd fs).1.error
        = some ("Both original and fallback builds failed: " ++
            "Fallback Docker image was not created successfully")) ∧
    (∀ env env' c c' b rd fs,
      (env.validate c).isValid = false →
      (env'.validate c').isValid = false →
      env'.uniqueBuildId = env.uniqueBuildId →
      env'.fallbackExec = env.fallbackExec →
      env'.fallbackImages = env.fallbackImages →
      (ContainerBuildEngine.buildImage env' c' b rd fs).1
        = (ContainerBuildEngine.buildImage env c b rd fs).1) := by
  refine ⟨?_, ?_, ?_, ?_, ?_, ?_⟩
  · intro env c b rd fs hinv
    rw [buildImage_invalid_path env c b rd fs hinv]
  · intro env o b rd fs hdf
    rw [createFallbackBuild_enoent env o b rd fs hdf]
    rfl
  · intro env o b rd fs msg hdir hfe
    have hw := writeFile_ok fs ((buildDirectory ++ [b]) ++ ["Dockerfile"])
      fallbackDockerfile (by rw [dropLast_concat_path]; exact hdir)
    simp only [ContainerBuildEngine.createFallbackBuild, hw, hfe]
    rfl
  · intro env o b rd fs fo fe msg hdir hfe hfi
    have hw := writeFile_ok fs ((buildDirectory ++ [b]) ++ ["Dockerfile"])
      fallbackDockerfile (by rw [dropLast_concat_path]; exact hdir)
    simp only [ContainerBuildEngine.createFallbackBuild, hw, hfe, hfi]
    rfl
  · intro env o b rd fs fo fe io ie hdir hfe hfi ht
    have hw := writeFile_ok fs ((buildDirectory ++ [b]) ++ ["Dockerfile"])
      fallbackDockerfile (by rw [dropLast_concat_path]; exact hdir)
    simp only [ContainerBuildEngine.createFallbackBuild, hw, hfe, hfi, if_pos ht]
    rfl
  · intro env env' c c' b rd fs hinv hinv' hu hfe hfi
    rw [buildImage_invalid_path env c b rd fs hinv,
      buildImage_invalid_path env' c' b rd fs hinv', hu,
      createFallbackBuild_env_congr env env' c c' b rd rd
        (fs.mkdirRecursive (buildDirectory ++ [env.uniqueBuildId])) hfe hfi]

/-- Witness for C8 (amended) at a concrete doubly-failing run: the
message is the fixed prefix followed by exactly the fallback builder's
rejection message. -/
theorem both_failed_message_witness :
    (fsWithFallbackDir "b").dirExists (buildDirectory ++ ["b"]) = true ∧
    (ContainerBuildEngine.createFallbackBuild envInvalidFallbackFails "no base image" "b"
        none (fsWithFallbackDir "b")).1.error
      = some ("Both original and fallback builds failed: " ++ "npm install failed") :=
  ⟨by decide, both_failed_message_amended.2.2.1 envInvalidFallbackFails "no base image" "b"
    none (fsWithFallbackDir "b") "npm install failed" (by decide) rfl⟩

/-- C9: workspace materialization is idempotent for the dependency
manifest: a repository-supplied manifest object is serialized exactly
(no merging), the manifest file is written only if absent, and a second
run of the assembly step on the resulting workspace returns it unchanged,
leaving the serialized bytes of the manifest as the first run produced
them. -/
theorem manifest_materialization (ws : FPath) (rd : Option RepoData) (pj : Json)
    (rdFull : RepoData) (fs fs' : FS) :
    (rdFull.packageJson = some pj →
      ContainerBuildEngine.createPackageJson (some rdFull) = pj) ∧
    (ContainerBuildEngine.fileExists fs (ws ++ ["package.json"]) = true →
      ContainerBuildEngine.materializePackageJson ws rd fs = .ok fs) ∧
    (ContainerBuildEngine.materializePackageJson ws rd fs = .ok fs' →
      ContainerBuildEngine.materializePackageJson ws rd fs' = .ok fs') ∧
    (ContainerBuildEngine.fileExists fs (ws ++ ["package.json"]) = false →
      ContainerBuildEngine.materializePackageJson ws rd fs = .ok fs' →
      fs'.read (ws ++ ["package.json"])
        = some (Json.stringify (ContainerBuildEngine.createPackageJson rd))) := by
  refine ⟨?_, ?_, ?_, ?_⟩
  · intro h
    simp [ContainerBuildEngine.createPackageJson, h]
  · intro h
    unfold ContainerBuildEngine.materializePackageJson
    rw [if_pos h]
  · exact materializePackageJson_idem ws rd fs fs'
  · exact materializePackageJson_writes ws rd fs fs'

/-- Witness for C9: materializing a caller-supplied manifest into a fresh
workspace, then running the assembly step again, leaves the manifest's
serialized bytes unchanged. -/
theorem manifest_materialization_witness :
    (ContainerBuildEngine.materializePackageJson ["temp", "w"]
        (some { packageJson := some (Json.str "custom") })
        { dirs := [["temp"], ["temp", "w"]], files := [] }
      = .ok { dirs := [["temp"], ["temp", "w"]],
              files := [(["temp", "w", "package.json"],
                Json.stringify (ContainerBuildEngine.createPackageJson
                  (some { packageJson := some (Json.str "custom") })))] }) ∧
    (ContainerBuildEngine.materializePackageJson ["temp", "w"]
        (some { packageJson := some (Json.str "custom") })
        { dirs := [["temp"], ["temp", "w"]],
          files := [(["temp", "w", "package.json"],
            Json.stringify (ContainerBuildEngine.createPackageJson
              (some { packageJson := some (Json.str "custom") })))] }
      = .ok { dirs := [["temp"], ["temp", "w"]],
              files := [(["temp", "w", "package.json"],
                Json.stringify (ContainerBuildEngine.createPackageJson
                  (some { packageJson := some (Json.str "custom") })))] }) := by
  constructor
  · rfl
  · exact (manifest_materialization ["temp", "w"]
      (some { packageJson := some (Json.str "custom") }) (Json.str "custom")
      { packageJson := some (Json.str "custom") }
      { dirs := [["temp"], ["temp", "w"]], files := [] } _).2.2.1 (by rfl)

/-- C10: the fallback's only filesystem write is the fixed fallback
Dockerfile into `temp/<buildId>`: it creates no directory, writes neither
the exclusion manifest nor the dependency manifest nor the placeholder
source, deletes nothing — and when `temp/<buildId>` does not already
exist, the attempt fails with `success = false` leaving the filesystem
untouched. -/
theorem fallback_frame_effect (env : BuildEnv) (o b : String)
    (rd : Option RepoData) (fs : FS) :
    ((ContainerBuildEngine.createFallbackBuild env o b rd fs).2).dirs = fs.dirs ∧
    (∀ p cc, (p, cc) ∈ ((ContainerBuildEngine.createFallbackBuild env o b rd fs).2).files →
      (p, cc) ∈ fs.files ∨
        (p = (buildDirectory ++ [b]) ++ ["Dockerfile"] ∧ cc = fallbackDockerfile)) ∧
    (∀ p cc, (p, cc) ∈ fs.files → p ≠ (buildDirectory ++ [b]) ++ ["Dockerfile"] →
      (p, cc) ∈ ((ContainerBuildEngine.createFallbackBuild env o b rd fs).2).files) ∧
    (fs.dirExists (buildDirectory ++ [b]) = false →
      (ContainerBuildEngine.createFallbackBuild env o b rd fs).1.success = false ∧
      (ContainerBuildEngine.createFallbackBuild env o b rd fs).2 = fs) := by
  refine ⟨(createFallbackBuild_frame env o b rd fs).1,
    (createFallbackBuild_frame env o b rd fs).2.1,
    (createFallbackBuild_frame env o b rd fs).2.2, ?_⟩
  intro hdf
  rw [createFallbackBuild_enoent env o b rd fs hdf]
  exact ⟨rfl, rfl⟩

/-- Witness for C10 at a concrete run with the fallback directory absent. -/
theorem fallback_frame_effect_witness :
    fsTempOnly.dirExists (buildDirectory ++ ["b"]) = false ∧
    (ContainerBuildEngine.createFallbackBuild envInvalidFallbackFails "orig" "b" none
        fsTempOnly).1.success = false :=
  ⟨by decide, ((fallback_frame_effect envInvalidFallbackFails "orig" "b" none
    fsTempOnly).2.2.2 (by decide)).1⟩
